import Mathlib

/-!
Shallow embedding of the Raspberry Pi monitoring dashboard (`src/main.py`)
and proofs about its behavioural contract: API fail-soft error handling,
TTL result caching, map-click selection resolution, session selection
state, rendering of metrics, alerts and the detail panel, and the
blocking auto-refresh loop.

Coordinates and averaged readings are modelled as rationals, machine
integers as `Nat`/`Int`.  Fallible HTTP interaction is modelled by an
explicit outcome datatype; each API function is a total function of the
outcome, which captures that no exception escapes it.  The render cycle
`main_dashboard` is a pure function of the fetched data, the UI inputs
and the prior selection state, returning the rendered output and the new
selection state.
-/

namespace Dashboard

/-- A device record as returned by `GET /api/raspberry-locations`
(see the sample payload in the source comments). -/
structure DeviceRecord where
  raspberry_id : Nat
  name : String
  location : String
  latitude : ℚ
  longitude : ℚ
  last_seen : Option String
  status : String
  total_detections : ℤ
  last_detection : Option String
deriving Repr, DecidableEq

/-- An image record as returned by `GET /api/raspberry-images/...`. -/
structure ImageRecord where
  id : Nat
  timestamp : String
  detection_count : ℤ
  confidence : ℚ
  image_path : String
  temperature : ℚ
  humidity : ℚ
deriving Repr, DecidableEq

/-- The statistics payload of `GET /api/statistics`.  The dashboard reads
it as a JSON object with `stats.get(key, default)`, so each field is
optional here; the empty object (returned on failure) is all `none`. -/
structure StatisticsSnapshot where
  total_detections : Option ℤ
  avg_temperature : Option ℚ
  avg_humidity : Option ℚ
deriving Repr, DecidableEq

/-- The empty statistics object `\x7b\x7d` returned by `get_statistics`
on failure. -/
def emptyStats : StatisticsSnapshot :=
  { total_detections := none, avg_temperature := none, avg_humidity := none }

/-- Outcome of one `requests.get` call, as observed by the caller:
either the request raised (connection error, timeout, ...), or a
response with a status code arrived.  `parsed` is the successfully
parsed and projected JSON payload; `none` means parsing the body or
projecting the expected field raises. -/
inductive FetchOutcome (α : Type) where
  | netFailure (msg : String)
  | response (status : Nat) (parsed : Option α)

/-- `get_raspberry_locations` of `src/main.py`, as a function of the HTTP
outcome.  Returns the device list together with the list of user-visible
error notices it emits.  Totality models that no exception propagates:
the `try/except` catches everything raised inside the body. -/
def get_raspberry_locations :
    FetchOutcome (List DeviceRecord) → List DeviceRecord × List String
  | .netFailure m => ([], ["Error conectando con API: " ++ m])
  | .response status parsed =>
      if status = 200 then
        match parsed with
        | some v => (v, [])
        | none => ([], ["Error conectando con API: parse failure"])
      else ([], [])

/-- `get_raspberry_images` of `src/main.py`.  The device id and limit are
the cache-key arguments; they do not influence the error handling. -/
def get_raspberry_images (raspberry_id : Nat) (limit : Nat) :
    FetchOutcome (List ImageRecord) → List ImageRecord × List String
  | .netFailure m => ([], ["Error obteniendo imagenes: " ++ m])
  | .response status parsed =>
      if status = 200 then
        match parsed with
        | some v => (v, [])
        | none => ([], ["Error obteniendo imagenes: parse failure"])
      else ([], [])

/-- `get_statistics` of `src/main.py`; returns the empty object on every
failure path. -/
def get_statistics :
    FetchOutcome StatisticsSnapshot → StatisticsSnapshot × List String
  | .netFailure m => (emptyStats, ["Error obteniendo estadisticas: " ++ m])
  | .response status parsed =>
      if status = 200 then
        match parsed with
        | some v => (v, [])
        | none => (emptyStats, ["Error obteniendo estadisticas: parse failure"])
      else (emptyStats, [])

/-- TTL of the `st.cache_data` wrapper on `get_raspberry_locations`
(`@st.cache_data(ttl=10)` in the source). -/
def locationsTTL : Nat := 10

/-- TTL of the `st.cache_data` wrapper on `get_raspberry_images`
(`@st.cache_data(ttl=5)` in the source). -/
def imagesTTL : Nat := 5

/-- TTL of the `st.cache_data` wrapper on `get_statistics`
(`@st.cache_data(ttl=15)` in the source). -/
def statisticsTTL : Nat := 15

/-- One memoization entry: the argument tuple it is keyed by, the time it
was stored, and the stored result. -/
structure CacheEntry (κ α : Type) where
  key : κ
  cachedAt : Nat
  value : α
deriving Repr, DecidableEq

/-- Modelled from the spec: the `st.cache_data` memoization wrapper is
framework code, not part of this repository.  Per the Cache Entry model
of the spec, an entry is keyed by the argument tuple and is valid while
its wall-clock age is below the endpoint TTL; a call finding a valid
entry for its key returns the stored value without a network
round-trip, any other call performs the fetch and replaces the entry.
Returns the result, the new cache state, and whether a network request
was performed. -/
def cachedCall {κ α : Type} [DecidableEq κ] (ttl : Nat) (fetch : κ → α)
    (key : κ) (now : Nat) :
    Option (CacheEntry κ α) → α × (Option (CacheEntry κ α) × Bool)
  | some e =>
      if e.key = key ∧ now - e.cachedAt < ttl then (e.value, (some e, false))
      else (fetch key, (some ⟨key, now, fetch key⟩, true))
  | none => (fetch key, (some ⟨key, now, fetch key⟩, true))

/-- The per-axis tolerance test of the click handler: both coordinates of
the record differ from the clicked point by less than 0.001 degrees
(absolute difference per axis, lines 302-303 of the source). -/
def clickMatches (clicked_lat clicked_lng : ℚ) (r : DeviceRecord) : Prop :=
  |r.latitude - clicked_lat| < 1/1000 ∧ |r.longitude - clicked_lng| < 1/1000

instance (clicked_lat clicked_lng : ℚ) (r : DeviceRecord) :
    Decidable (clickMatches clicked_lat clicked_lng r) := by
  unfold clickMatches
  exact inferInstance

/-- The `for ... break` scan of the click handler: first record in list
order within tolerance of the clicked point, if any. -/
def findClicked (clicked_lat clicked_lng : ℚ) :
    List DeviceRecord → Option DeviceRecord
  | [] => none
  | r :: rest =>
      if clickMatches clicked_lat clicked_lng r then some r
      else findClicked clicked_lat clicked_lng rest

/-- Selection update performed by the map-click block (lines 296-305):
when a click is reported and some record matches, the selection becomes
the first matching record id; otherwise the selection is untouched. -/
def resolveClick (last_object_clicked : Option (ℚ × ℚ))
    (locations : List DeviceRecord) (sel : Option Nat) : Option Nat :=
  match last_object_clicked with
  | none => sel
  | some (la, ln) =>
      match findClicked la ln locations with
      | some r => some r.raspberry_id
      | none => sel

/-- Python truthiness of `st.session_state.selected_raspberry`: `None` is
falsy, and an integer id is truthy exactly when it is nonzero. -/
def truthy : Option Nat → Bool
  | none => false
  | some id => id != 0

/-- The `next((r for r in locations if ...), None)` lookup of the
selected record (line 312). -/
def selected_info (locations : List DeviceRecord) (sel : Nat) :
    Option DeviceRecord :=
  locations.find? (fun r => r.raspberry_id == sel)

/-- The alert banner text emitted for one record (line 187). -/
def alertMsg (r : DeviceRecord) : String :=
  "ALERTA!!, AEDES DETECTADO EN " ++ r.location

/-- The alert loop (lines 185-187): one banner per record with a positive
detection count, in list order. -/
def alertsFor : List DeviceRecord → List String
  | [] => []
  | r :: rest =>
      if 0 < r.total_detections then alertMsg r :: alertsFor rest
      else alertsFor rest

/-- The active-device metric (line 215):
`len([r for r in locations if r[...] == ...])`. -/
def activeCount (locations : List DeviceRecord) : Nat :=
  (locations.filter fun r => r.status == "online").length

/-- The four values of the metrics strip (lines 210-241). -/
structure MetricsStrip where
  activeCount : Nat
  total_detections : ℤ
  avg_temperature : ℚ
  avg_humidity : ℚ
deriving Repr, DecidableEq

/-- Observable output of one `main_dashboard` render: the alert banners,
whether the load-failure notice was shown, the metrics strip if it was
rendered, the record shown in the detail panel if any, the device whose
image section was rendered if any, whether the clear-selection button
was rendered, and the number of bars of the activity chart. -/
structure RenderOutput where
  alerts : List String
  loadFailNotice : Bool
  metrics : Option MetricsStrip
  detailPanel : Option DeviceRecord
  imageGridFor : Option Nat
  clearButtonShown : Bool
  chartBarCount : Nat
deriving Repr, DecidableEq

/-- The `main_dashboard` render cycle (lines 114-430) as a pure function
of the fetched data, the UI inputs (last clicked map point, the
show-images checkbox, whether the clear-selection button is pressed) and
the prior selection state.  Returns the rendered output and the
selection state after the cycle.  The alert loop runs first; with an
empty device list the function emits the load-failure notice and returns
early, before the metrics strip, map, selection block and chart. -/
def main_dashboard (locations : List DeviceRecord) (stats : StatisticsSnapshot)
    (last_object_clicked : Option (ℚ × ℚ)) (show_images : Bool)
    (clearPressed : Bool) (sel0 : Option Nat) : RenderOutput × Option Nat :=
  if locations.isEmpty then
    ({ alerts := alertsFor locations, loadFailNotice := true, metrics := none,
       detailPanel := none, imageGridFor := none, clearButtonShown := false,
       chartBarCount := 0 }, sel0)
  else
    let sel1 := resolveClick last_object_clicked locations sel0
    let info : Option DeviceRecord :=
      if truthy sel1 then selected_info locations (sel1.getD 0) else none
    let grid : Option Nat :=
      if truthy sel1 && info.isSome && show_images then sel1 else none
    let sel2 := if truthy sel1 && clearPressed then none else sel1
    ({ alerts := alertsFor locations, loadFailNotice := false,
       metrics := some
         { activeCount := activeCount locations
           total_detections := stats.total_detections.getD 0
           avg_temperature := stats.avg_temperature.getD 0
           avg_humidity := stats.avg_humidity.getD 0 },
       detailPanel := info, imageGridFor := grid,
       clearButtonShown := truthy sel1,
       chartBarCount := locations.length }, sel2)

/-- State of the blocking auto-refresh loop (lines 433-453): the refresh
counter and how many times `st.cache_data.clear()` has fired. -/
structure LoopState where
  counter : Nat
  cacheClears : Nat
deriving Repr, DecidableEq

/-- One iteration of the `while True` loop: render, increment the
counter, sleep, and clear the whole cache when the counter is a multiple
of ten. -/
def loopStep (s : LoopState) : LoopState :=
  let c := s.counter + 1
  if c % 10 = 0 then { counter := c, cacheClears := s.cacheClears + 1 }
  else { counter := c, cacheClears := s.cacheClears }

/-- The loop state after `n` refresh cycles, starting from `counter = 0`
and no cache clear. -/
def loopRun : Nat → LoopState
  | 0 => { counter := 0, cacheClears := 0 }
  | n + 1 => loopStep (loopRun n)

/-- A concrete online device used to instantiate theorems with
hypotheses. -/
def devA : DeviceRecord :=
  { raspberry_id := 1, name := "Raspberry-Miraflores",
    location := "Miraflores, Lima", latitude := 0, longitude := 0,
    last_seen := none, status := "online", total_detections := 0,
    last_detection := none }

/-- A second concrete device, at distinct coordinates. -/
def devB : DeviceRecord :=
  { raspberry_id := 2, name := "Raspberry-San Isidro",
    location := "San Isidro, Lima", latitude := 5, longitude := 5,
    last_seen := none, status := "offline", total_detections := 3,
    last_detection := none }

/-- The rendered alert list is the alert loop output, in every branch of
the render. -/
theorem main_dashboard_alerts (locations : List DeviceRecord)
    (stats : StatisticsSnapshot) (click : Option (ℚ × ℚ))
    (show_images clearPressed : Bool) (sel : Option Nat) :
    (main_dashboard locations stats click show_images clearPressed
      sel).1.alerts = alertsFor locations := by
  unfold main_dashboard
  split <;> rfl

/-- The alert loop emits exactly the banners of the records with positive
detection count, in order. -/
theorem alertsFor_eq_filter_map (locations : List DeviceRecord) :
    alertsFor locations =
      (locations.filter fun r => decide (0 < r.total_detections)).map
        alertMsg := by
  induction locations with
  | nil => rfl
  | cons r rest ih =>
      by_cases hr : 0 < r.total_detections <;>
        simp [alertsFor, List.filter, hr, ih]

/-- Claim C7: for every device list, exactly one alert banner is produced
for each device with a positive detection count, in list order, and none
for any device with detection count zero (or below). -/
theorem C7_alert_banners (locations : List DeviceRecord)
    (stats : StatisticsSnapshot) (click : Option (ℚ × ℚ))
    (show_images clearPressed : Bool) (sel : Option Nat) :
    (main_dashboard locations stats click show_images clearPressed
      sel).1.alerts =
      (locations.filter fun r => decide (0 < r.total_detections)).map
        alertMsg := by
  rw [main_dashboard_alerts]
  exact alertsFor_eq_filter_map locations

/-- Claim C4: in the blocking auto-refresh loop, the counter increases by
one each cycle; after exactly ten cycles the full cache clear has fired
exactly once; it has not fired at cycle 0 nor during the first nine
cycles. -/
theorem C4_refresh_counter :
    (∀ n, (loopRun (n + 1)).counter = (loopRun n).counter + 1)
    ∧ (loopRun 10).cacheClears = 1
    ∧ (loopRun 0).cacheClears = 0
    ∧ ((List.range 10).all fun n => (loopRun n).cacheClears == 0) = true := by
  refine ⟨?_, by decide, rfl, by decide⟩
  intro n
  show (loopStep (loopRun n)).counter = (loopRun n).counter + 1
  by_cases h : ((loopRun n).counter + 1) % 10 = 0 <;> simp [loopStep, h]

/-- Claim C3, counterexample: with an empty device list the render does
not produce a zero-valued metrics strip; it renders no metrics strip at
all and shows the load-failure notice instead. -/
theorem C3_counterexample :
    (main_dashboard [] emptyStats none true false none).1.metrics = none
    ∧ (main_dashboard [] emptyStats none true false
        none).1.loadFailNotice = true := by
  exact ⟨rfl, rfl⟩

/-- Claim C3, amended: when the locations fetch resolves to the empty
list, the render cycle does not raise; it emits the load-failure notice
and returns early, rendering no alerts, no metrics strip, no detail
panel, no image grid, no clear button and no chart bars, and leaving the
selection state unchanged. -/
theorem C3_empty_locations (stats : StatisticsSnapshot)
    (click : Option (ℚ × ℚ)) (show_images clearPressed : Bool)
    (sel : Option Nat) :
    main_dashboard [] stats click show_images clearPressed sel =
      ({ alerts := [], loadFailNotice := true, metrics := none,
         detailPanel := none, imageGridFor := none,
         clearButtonShown := false, chartBarCount := 0 }, sel) := rfl

/-- Claim C2, counterexample: a non-200 response (here a 404) makes
`get_raspberry_locations` return the empty default with no user-visible
warning at all, contradicting the claim that a warning is emitted on any
non-200 status. -/
theorem C2_counterexample :
    get_raspberry_locations (FetchOutcome.response 404 (some [devA])) =
      ([], []) := rfl

/-- Claim C2, amended: for each of the three API operations, no exception
propagates (each is a total function of the fetch outcome); on a non-200
status the operation returns the empty default silently, with no
warning; on a network failure or a parse failure it returns the empty
default and emits a user-visible warning. -/
theorem C2_fail_soft (status : Nat) (h : status ≠ 200) (m : String)
    (pl : Option (List DeviceRecord)) (pim : Option (List ImageRecord))
    (ps : Option StatisticsSnapshot) (rid limit : Nat) :
    get_raspberry_locations (.response status pl) = ([], [])
    ∧ get_raspberry_images rid limit (.response status pim) = ([], [])
    ∧ get_statistics (.response status ps) = (emptyStats, [])
    ∧ ((get_raspberry_locations (.netFailure m)).1 = []
        ∧ (get_raspberry_locations (.netFailure m)).2 ≠ [])
    ∧ ((get_raspberry_images rid limit (.netFailure m)).1 = []
        ∧ (get_raspberry_images rid limit (.netFailure m)).2 ≠ [])
    ∧ ((get_statistics (.netFailure m)).1 = emptyStats
        ∧ (get_statistics (.netFailure m)).2 ≠ [])
    ∧ ((get_raspberry_locations (.response 200 none)).1 = []
        ∧ (get_raspberry_locations (.response 200 none)).2 ≠ [])
    ∧ ((get_raspberry_images rid limit (.response 200 none)).1 = []
        ∧ (get_raspberry_images rid limit (.response 200 none)).2 ≠ [])
    ∧ ((get_statistics (.response 200 none)).1 = emptyStats
        ∧ (get_statistics (.response 200 none)).2 ≠ []) := by
  refine ⟨?_, ?_, ?_, ?_, ?_, ?_, ?_, ?_, ?_⟩ <;>
    simp [get_raspberry_locations, get_raspberry_images, get_statistics, h]

/-- Witness for the amended C2 at concrete inputs. -/
theorem C2_fail_soft_witness :
    get_raspberry_locations (.response 404 none) = ([], [])
    ∧ get_raspberry_images 1 3 (.response 404 none) = ([], [])
    ∧ get_statistics (.response 404 none) = (emptyStats, [])
    ∧ ((get_raspberry_locations (.netFailure "timeout")).1 = []
        ∧ (get_raspberry_locations (.netFailure "timeout")).2 ≠ [])
    ∧ ((get_raspberry_images 1 3 (.netFailure "timeout")).1 = []
        ∧ (get_raspberry_images 1 3 (.netFailure "timeout")).2 ≠ [])
    ∧ ((get_statistics (.netFailure "timeout")).1 = emptyStats
        ∧ (get_statistics (.netFailure "timeout")).2 ≠ [])
    ∧ ((get_raspberry_locations (.response 200 none)).1 = []
        ∧ (get_raspberry_locations (.response 200 none)).2 ≠ [])
    ∧ ((get_raspberry_images 1 3 (.response 200 none)).1 = []
        ∧ (get_raspberry_images 1 3 (.response 200 none)).2 ≠ [])
    ∧ ((get_statistics (.response 200 none)).1 = emptyStats
        ∧ (get_statistics (.response 200 none)).2 ≠ []) :=
  C2_fail_soft 404 (by decide) "timeout" none none none 1 3

/-- Claim C10: because the selection check is a Python truthiness test, a
selection holding the identifier 0 renders exactly like no selection:
the outputs coincide, and in particular no detail panel, no image grid
and no clear-selection button are rendered. -/
theorem C10_zero_id_falsy (locations : List DeviceRecord)
    (stats : StatisticsSnapshot) (show_images clearPressed : Bool) :
    (main_dashboard locations stats none show_images clearPressed
        (some 0)).1 =
      (main_dashboard locations stats none show_images clearPressed
        none).1
    ∧ (main_dashboard locations stats none show_images clearPressed
        (some 0)).1.detailPanel = none
    ∧ (main_dashboard locations stats none show_images clearPressed
        (some 0)).1.imageGridFor = none
    ∧ (main_dashboard locations stats none show_images clearPressed
        (some 0)).1.clearButtonShown = false := by
  cases locations with
  | nil => exact ⟨rfl, rfl, rfl, rfl⟩
  | cons r rest => exact ⟨rfl, rfl, rfl, rfl⟩

/-- When no record matches the clicked point, the scan finds nothing. -/
theorem findClicked_eq_none (clicked_lat clicked_lng : ℚ)
    (locations : List DeviceRecord)
    (h : ∀ r ∈ locations, ¬ clickMatches clicked_lat clicked_lng r) :
    findClicked clicked_lat clicked_lng locations = none := by
  induction locations with
  | nil => rfl
  | cons r rest ih =>
      rw [findClicked, if_neg (h r (List.mem_cons_self r rest))]
      exact ih fun x hx => h x (List.mem_cons_of_mem r hx)

/-- The scan returns the first matching record in list order. -/
theorem findClicked_first (clicked_lat clicked_lng : ℚ)
    (xs ys : List DeviceRecord) (d : DeviceRecord)
    (hd : clickMatches clicked_lat clicked_lng d)
    (hxs : ∀ x ∈ xs, ¬ clickMatches clicked_lat clicked_lng x) :
    findClicked clicked_lat clicked_lng (xs ++ d :: ys) = some d := by
  induction xs with
  | nil => rw [List.nil_append, findClicked, if_pos hd]
  | cons x rest ih =>
      rw [List.cons_append, findClicked,
        if_neg (hxs x (List.mem_cons_self x rest))]
      exact ih fun z hz => hxs z (List.mem_cons_of_mem x hz)

/-- Claim C1: for every clicked point and device list, the click resolver
selects the first device in list order whose latitude and longitude each
differ from the clicked point by less than 0.001 degrees, setting the
selection to that device id; if no device is within tolerance on both
axes, the selection is left unchanged. -/
theorem C1_click_resolver (clicked_lat clicked_lng : ℚ)
    (locations : List DeviceRecord) (sel : Option Nat) :
    (∀ xs d ys, locations = xs ++ d :: ys →
        clickMatches clicked_lat clicked_lng d →
        (∀ x ∈ xs, ¬ clickMatches clicked_lat clicked_lng x) →
        resolveClick (some (clicked_lat, clicked_lng)) locations sel =
          some d.raspberry_id)
    ∧ ((∀ r ∈ locations, ¬ clickMatches clicked_lat clicked_lng r) →
        resolveClick (some (clicked_lat, clicked_lng)) locations sel =
          sel) := by
  constructor
  · intro xs d ys hsplit hd hxs
    subst hsplit
    unfold resolveClick
    dsimp only
    rw [findClicked_first clicked_lat clicked_lng xs ys d hd hxs]
  · intro hnone
    unfold resolveClick
    dsimp only
    rw [findClicked_eq_none clicked_lat clicked_lng locations hnone]

/-- Witness for C1: clicking on the coordinates of the second device
selects it, and clicking far from every device leaves the selection
unchanged. -/
theorem C1_witness :
    resolveClick (some ((5 : ℚ), (5 : ℚ))) [devA, devB] (some 9) =
      some devB.raspberry_id
    ∧ resolveClick (some ((50 : ℚ), (50 : ℚ))) [devA, devB] (some 9) =
      some 9 :=
  ⟨(C1_click_resolver 5 5 [devA, devB] (some 9)).1 [devA] devB [] rfl
      (by norm_num [clickMatches, devB])
      (by norm_num [clickMatches, devA]),
    (C1_click_resolver 50 50 [devA, devB] (some 9)).2
      (by norm_num [clickMatches, devA, devB])⟩

/-- Claim C5, counterexample: with the locations TTL of 10, calls at
times 0, 9 and 15 on the same key form a pair (the calls at 9 and 15)
spaced 6 < 10 apart where the second call does perform a network
request: the entry stored at time 0 has expired by time 15, even though
the previous call was only 6 time units earlier. -/
theorem C5_counterexample :
    (15 : Nat) - 9 < locationsTTL
    ∧ ((cachedCall locationsTTL (fun n : Nat => n) 7 9
          (cachedCall locationsTTL (fun n : Nat => n) 7 0 none).2.1).2.2
        = false)
    ∧ ((cachedCall locationsTTL (fun n : Nat => n) 7 15
          (cachedCall locationsTTL (fun n : Nat => n) 7 9
            (cachedCall locationsTTL (fun n : Nat => n) 7 0
              none).2.1).2.1).2.2
        = true) := by decide

/-- Claim C5, amended: the three endpoints have TTLs 10, 5 and 15; and
whenever a call at time `t1` performed a network request (storing a
fresh entry), any identical call at time `t2` with `t2 - t1` below the
TTL performs no network request, returns the same result as the first
call, and leaves the cache state unchanged.  Entry validity is measured
from the time the entry was stored, so a pair of calls can straddle the
expiry of an older entry even when spaced less than the TTL apart. -/
theorem C5_ttl_cache {κ α : Type} [DecidableEq κ] (ttl : Nat)
    (fetch : κ → α) (key : κ) (t1 t2 : Nat)
    (st : Option (CacheEntry κ α))
    (hfetched : (cachedCall ttl fetch key t1 st).2.2 = true)
    (hlt : t2 - t1 < ttl) :
    locationsTTL = 10 ∧ imagesTTL = 5 ∧ statisticsTTL = 15
    ∧ cachedCall ttl fetch key t2 (cachedCall ttl fetch key t1 st).2.1 =
        ((cachedCall ttl fetch key t1 st).1,
          ((cachedCall ttl fetch key t1 st).2.1, false)) := by
  refine ⟨rfl, rfl, rfl, ?_⟩
  have h1 : cachedCall ttl fetch key t1 st =
      (fetch key, (some ⟨key, t1, fetch key⟩, true)) := by
    cases st with
    | none => rfl
    | some e =>
        by_cases hc : e.key = key ∧ t1 - e.cachedAt < ttl
        · exfalso
          have hfalse : (cachedCall ttl fetch key t1 (some e)).2.2 =
              false := by
            unfold cachedCall
            dsimp only
            rw [if_pos hc]
          rw [hfalse] at hfetched
          exact Bool.false_ne_true hfetched
        · unfold cachedCall
          dsimp only
          rw [if_neg hc]
  rw [h1]
  unfold cachedCall
  dsimp only
  rw [if_pos ⟨rfl, hlt⟩]

/-- Witness for the amended C5: a miss at time 0 followed by an
identical call at time 9 with the locations TTL of 10. -/
theorem C5_ttl_cache_witness :
    locationsTTL = 10 ∧ imagesTTL = 5 ∧ statisticsTTL = 15
    ∧ cachedCall locationsTTL (fun n : Nat => n + 1) 3 9
        (cachedCall locationsTTL (fun n : Nat => n + 1) 3 0 none).2.1 =
        ((cachedCall locationsTTL (fun n : Nat => n + 1) 3 0 none).1,
          ((cachedCall locationsTTL (fun n : Nat => n + 1) 3 0 none).2.1,
            false)) :=
  C5_ttl_cache locationsTTL (fun n : Nat => n + 1) 3 0 9 none rfl
    (by decide)

/-- On a device record, equality testing of the status string with `==`
agrees with decidable propositional equality. -/
theorem status_beq_eq_decide (r : DeviceRecord) :
    (r.status == "online") = decide (r.status = "online") := by
  by_cases hr : r.status = "online" <;> simp [hr]

/-- Claim C6: for every nonempty device list, the metrics strip is
rendered and its active-device count equals exactly the number of
records whose status field equals "online". -/
theorem C6_active_count (locations : List DeviceRecord)
    (h : locations ≠ []) (stats : StatisticsSnapshot)
    (click : Option (ℚ × ℚ)) (show_images clearPressed : Bool)
    (sel : Option Nat) :
    ∃ m, (main_dashboard locations stats click show_images clearPressed
        sel).1.metrics = some m
      ∧ m.activeCount =
          locations.countP fun r => decide (r.status = "online") := by
  cases locations with
  | nil => exact absurd rfl h
  | cons a l =>
      refine ⟨_, rfl, ?_⟩
      show activeCount (a :: l) =
        List.countP (fun r => decide (r.status = "online")) (a :: l)
      unfold activeCount
      rw [List.countP_eq_length_filter]
      simp only [status_beq_eq_decide]

/-- Witness for C6 on a one-device online list. -/
theorem C6_witness :
    ∃ m, (main_dashboard [devA] emptyStats none true false
        none).1.metrics = some m
      ∧ m.activeCount =
          List.countP (fun r => decide (r.status = "online")) [devA] :=
  C6_active_count [devA] (List.cons_ne_nil devA []) emptyStats none true
    false none

/-- Claim C8: whenever the clear-selection button is rendered and
pressed, the selection state after the cycle is `none`, for every prior
selection value. -/
theorem C8_clear_selection (locations : List DeviceRecord)
    (stats : StatisticsSnapshot) (show_images : Bool) (sel : Option Nat)
    (hbtn : (main_dashboard locations stats none show_images true
        sel).1.clearButtonShown = true) :
    (main_dashboard locations stats none show_images true sel).2 =
      none := by
  cases locations with
  | nil => exact absurd hbtn (by simp [main_dashboard])
  | cons a l =>
      have hsel : truthy sel = true := hbtn
      simp [main_dashboard, resolveClick, hsel]

/-- Witness for C8: with one device and selection 1, pressing the button
clears the selection. -/
theorem C8_witness :
    (main_dashboard [devA] emptyStats none true true (some 1)).2 =
      none :=
  C8_clear_selection [devA] emptyStats true (some 1) rfl

/-- Claim C9: when the selection holds an identifier absent from the
latest device list, the lookup finds nothing, the detail panel is
skipped, and the selection state survives the refresh cycle unchanged
(no click reported, clear button not pressed). -/
theorem C9_stale_selection (locations : List DeviceRecord)
    (stats : StatisticsSnapshot) (show_images : Bool) (id : Nat)
    (h : id ∉ locations.map DeviceRecord.raspberry_id) :
    selected_info locations id = none
    ∧ (main_dashboard locations stats none show_images false
        (some id)).1.detailPanel = none
    ∧ (main_dashboard locations stats none show_images false
        (some id)).2 = some id := by
  have hfind : selected_info locations id = none := by
    unfold selected_info
    rw [List.find?_eq_none]
    intro x hx hx2
    exact h (List.mem_map.mpr ⟨x, hx, beq_iff_eq.mp hx2⟩)
  refine ⟨hfind, ?_, ?_⟩
  · cases locations with
    | nil => rfl
    | cons a l =>
        cases htr : truthy (some id) with
        | false => simp [main_dashboard, resolveClick, htr]
        | true => simp [main_dashboard, resolveClick, htr, hfind]
  · cases locations with
    | nil => rfl
    | cons a l => simp [main_dashboard, resolveClick]

/-- Witness for C9: selection 2 with a list containing only device 1. -/
theorem C9_witness :
    selected_info [devA] 2 = none
    ∧ (main_dashboard [devA] emptyStats none true false
        (some 2)).1.detailPanel = none
    ∧ (main_dashboard [devA] emptyStats none true false
        (some 2)).2 = some 2 :=
  C9_stale_selection [devA] emptyStats true 2 (by decide)

end Dashboard
